import Mathlib

/-!
Verification development for the multi-agent tutoring system
(SarthakB11/multi-agent-tutoring-bot).

The Python source is shallowly embedded:
  * Python dicts with string keys become association lists with unique keys
    (assignment replaces the binding in place, preserving insertion order,
    exactly as a Python dict does).
  * floats become rationals.
  * raised exceptions become explicit outcome constructors.
  * async generators become explicit interaction trees: each suspension point
    records the event the generator yielded (an agent statement of the form
    "x = yield" yields the value None, modelled as the event Option.none) and
    a continuation taking the value sent into the generator on resumption.
    Iterating an async generator with "async for" sends None at every
    resumption, which the interpreter below reproduces.
-/

namespace TutorBot

/-- Characters matched by the Python regex class backslash-s (ASCII range,
which is all the source ever feeds it). -/
def isPySpace (c : Char) : Bool :=
  c = ' ' || c = '\t' || c = '\n' || c = '\x0d' || c = '\x0b' || c = '\x0c'

/-- Python str.lower, per character (ASCII, which is all the source uses). -/
def pyLower (s : List Char) : List Char :=
  s.map Char.toLower

/-- Python str.strip with no argument: remove leading and trailing whitespace. -/
def pyStrip (s : List Char) : List Char :=
  ((s.dropWhile isPySpace).reverse.dropWhile isPySpace).reverse

/-- Python substring containment "needle in hay" on strings. -/
def isSubstr (needle : List Char) : List Char → Bool
  | [] => needle.isEmpty
  | c :: rest => needle.isPrefixOf (c :: rest) || isSubstr needle rest

/-- Substring containment lifted to String (lists of characters underneath). -/
def isSubstrS (needle hay : String) : Bool :=
  isSubstr needle.toList hay.toList

/-- Lookup in a Python dict modelled as an association list. -/
def lookupK {α : Type} : List (String × α) → String → Option α
  | [], _ => none
  | (k, v) :: rest, key => if k = key then some v else lookupK rest key

/-- Assignment d[key] = v in a Python dict: replace the existing binding in
place, else append a new one (Python dicts preserve insertion order). -/
def setK {α : Type} : List (String × α) → String → α → List (String × α)
  | [], key, v => [(key, v)]
  | (k, w) :: rest, key, v =>
      if k = key then (k, v) :: rest else (k, w) :: setK rest key v

/-- Python dict.update: write every binding of u into d, in order. -/
def dictUpdate {α : Type} (d u : List (String × α)) : List (String × α) :=
  u.foldl (fun a p => setK a p.1 p.2) d

/-- Session-state values stored by Runner.process_query: strings or Python
None (the final response variable can be None when no response was produced). -/
inductive SVal
  | vstr (s : String)
  | vnone
  deriving DecidableEq

/-- One session entry: a mapping of string keys to values. -/
abbrev SessionMap := List (String × SVal)

/-- The SessionService.sessions dictionary: session id to session state. -/
abbrev Sessions := List (String × SessionMap)

/-- SessionService.get_session_state (src/utils/adk.py): dict.get with an
empty-mapping default; never fails, never modifies the store. -/
def get_session_state (sessions : Sessions) (session_id : String) : SessionMap :=
  (lookupK sessions session_id).getD []

/-- SessionService.update_session_state (src/utils/adk.py): create the entry
if absent, then shallow-merge the updates into it (dict.update). -/
def update_session_state (sessions : Sessions) (session_id : String)
    (updates : SessionMap) : Sessions :=
  let s1 := if (lookupK sessions session_id).isNone
            then setK sessions session_id [] else sessions
  setK s1 session_id (dictUpdate ((lookupK s1 session_id).getD []) updates)

/-! ## Routing policy (TutorAgent, src/agents/tutor_agent.py) -/

/-- TutorAgent.math_keywords (src/agents/tutor_agent.py). -/
def math_keywords : List String :=
  ["math", "mathematics", "algebra", "calculus", "geometry", "trigonometry",
   "equation", "solve", "simplify", "factor", "expand", "derivative", "integral",
   "function", "graph", "polynomial", "matrix", "vector", "logarithm", "exponent",
   "sin", "cos", "tan", "calculate", "computation", "arithmetic", "number",
   "theorem", "proof", "formula", "expression", "variable", "coefficient",
   "quadratic", "linear", "inequality", "fraction", "decimal", "percentage"]

/-- TutorAgent.physics_keywords (src/agents/tutor_agent.py); the source list
contains "pressure" twice and the count honours that. -/
def physics_keywords : List String :=
  ["physics", "mechanics", "dynamics", "kinematics", "force", "energy", "momentum",
   "gravity", "acceleration", "velocity", "displacement", "motion", "newton",
   "thermodynamics", "heat", "temperature", "pressure", "volume", "gas",
   "electromagnetism", "electric", "magnetic", "field", "charge", "current",
   "voltage", "resistance", "circuit", "wave", "optics", "light", "reflection",
   "refraction", "quantum", "relativity", "nuclear", "atom", "particle",
   "conservation", "friction", "fluid", "density", "pressure", "oscillation"]

/-- Number of keywords of the given list occurring in the (already lower-cased)
query: sum(1 for keyword in keywords if keyword in query_lower). -/
def keyword_count (keywords : List String) (query_lower : List Char) : Nat :=
  (keywords.filter (fun k => isSubstr k.toList query_lower)).length

/-- Math keyword count of a query, after lower-casing, as in
TutorAgent._analyze_query_intent. -/
def mathCount (query : String) : Nat :=
  keyword_count math_keywords (pyLower query.toList)

/-- Physics keyword count of a query, after lower-casing. -/
def physicsCount (query : String) : Nat :=
  keyword_count physics_keywords (pyLower query.toList)

/-- Lexical confidence min(0.7 + 0.1 * count, 0.95) from
TutorAgent._analyze_query_intent. -/
def lexConf (count : Nat) : ℚ :=
  min (7/10 + (1/10) * (count : ℚ)) (19/20)

/-- Outcome of the intent-analysis oracle (GeminiClient.analyze_query_intent):
best agent, its confidence and the full score mapping, or the message of the
raised GeminiAPIError. The oracle itself is the external text-generation
capability and is a parameter of the model. -/
abbrev IntentOracle := String → Except String (String × ℚ × List (String × ℚ))

/-- TutorAgent._analyze_query_intent (src/agents/tutor_agent.py): stage-1
lexical scoring; on a clear keyword winner return it with capped confidence,
otherwise consult the oracle. -/
def analyze_query_intent (oracle : IntentOracle) (query : String) :
    Except String (String × ℚ × List (String × ℚ)) :=
  let math_count := mathCount query
  let physics_count := physicsCount query
  if math_count > 0 ∧ math_count > 2 * physics_count then
    let confidence := lexConf math_count
    .ok ("MathAgent", confidence,
         [("MathAgent", confidence), ("PhysicsAgent", 1 - confidence)])
  else if physics_count > 0 ∧ physics_count > 2 * math_count then
    let confidence := lexConf physics_count
    .ok ("PhysicsAgent", confidence,
         [("PhysicsAgent", confidence), ("MathAgent", 1 - confidence)])
  else
    oracle query

/-- HIGH_CONFIDENCE_THRESHOLD (src/config/settings.py). -/
def HIGH_CONFIDENCE_THRESHOLD : ℚ := 9/10

/-- DEFAULT_CONFIDENCE_THRESHOLD (src/config/settings.py). -/
def DEFAULT_CONFIDENCE_THRESHOLD : ℚ := 7/10

/-- LOW_CONFIDENCE_THRESHOLD (src/config/settings.py). -/
def LOW_CONFIDENCE_THRESHOLD : ℚ := 1/2

/-! ## Event model (src/models/adk.py) -/

/-- Result of a lookup, mirroring the tool_result dict built by
LookupTool.execute; absent dict keys are Option.none. -/
structure LookupResult where
  key : String
  type : String
  value : Option ℚ
  unit : Option String
  description : Option String
  formula : Option String
  vars : Option (List (String × String))
  match_confidence : Option ℚ
  original_query : Option String
  deriving DecidableEq

/-- Payload dictionaries carried by ToolResultEvent.result and
FinalResponseEvent.tool_results: the empty dict the Runner substitutes on
tool failure, a calculator result, or a lookup result. -/
inductive ToolDict
  | empty
  | calc (result : ℚ) (steps : List String)
  | lookupR (r : LookupResult)
  deriving DecidableEq

/-- The context payload a DelegationEvent carries (TutorAgent builds either
a dict with a scores key, or scores plus an ambiguity_note key). -/
structure DelegCtx where
  scores : List (String × ℚ)
  ambiguity_note : Option String
  deriving DecidableEq

/-- The closed set of events exchanged between agents, tools and the Runner
(src/models/adk.py). Every variant carries request_id and trace_id; the
optional details field of ErrorEvent is omitted because no construction site
in the source ever sets it. -/
inductive Event
  | delegation (target_agent : String) (confidence : ℚ) (context : DelegCtx)
      (request_id trace_id : String)
  | clarification (message : String) (options : List String)
      (request_id trace_id : String)
  | generalResponse (response : String) (request_id trace_id : String)
  | toolInvocation (tool_name : String) (inputs : List (String × String))
      (request_id trace_id : String)
  | toolResult (tool_name : String) (result : ToolDict) (error : Option String)
      (request_id trace_id : String)
  | finalResponse (response : String) (agent_used : String)
      (tool_used : Option String) (tool_results : Option ToolDict)
      (request_id trace_id : String)
  | error (error_code : String) (error_message : String)
      (request_id trace_id : String)
  deriving DecidableEq

/-- The event_type discriminant string of each variant (EventType enum). -/
def Event.event_type : Event → String
  | .delegation .. => "delegation"
  | .clarification .. => "clarification"
  | .generalResponse .. => "general_response"
  | .toolInvocation .. => "tool_invocation"
  | .toolResult .. => "tool_result"
  | .finalResponse .. => "final_response"
  | .error .. => "error"

/-- The request_id field every event variant carries. -/
def Event.requestId : Event → String
  | .delegation _ _ _ r _ => r
  | .clarification _ _ r _ => r
  | .generalResponse _ r _ => r
  | .toolInvocation _ _ r _ => r
  | .toolResult _ _ _ r _ => r
  | .finalResponse _ _ _ _ r _ => r
  | .error _ _ r _ => r

/-- The trace_id field every event variant carries. -/
def Event.traceId : Event → String
  | .delegation _ _ _ _ t => t
  | .clarification _ _ _ t => t
  | .generalResponse _ _ t => t
  | .toolInvocation _ _ _ t => t
  | .toolResult _ _ _ _ t => t
  | .finalResponse _ _ _ _ _ t => t
  | .error _ _ _ t => t

/-- InvocationContext (src/models/adk.py). metadata is only ever the empty
dict in the source, and extracted_context only ever receives a delegation
context payload, so those are the modelled types. -/
structure InvocationContext where
  query : String
  request_id : String
  session_id : Option String
  trace_id : String
  session_state : SessionMap
  metadata : List (String × String)
  extracted_context : DelegCtx

/-! ## TutorAgent (src/agents/tutor_agent.py) -/

/-- Stands for the Python float rendering with two decimals used inside the
ambiguity note; no claim inspects the note text. -/
def fmtConf (c : ℚ) : String := toString c

/-- The clarification message TutorAgent.run emits in the low-confidence band. -/
def clarificationMessage : String :=
  "I'm not sure which subject your question is about. Could you please clarify if you're asking about:"

/-- The options list the clarification builds from the score mapping. -/
def clarificationOptions (scores : List (String × ℚ)) : List String :=
  scores.filterMap (fun p =>
    if p.1 = "MathAgent" then some "Mathematics"
    else if p.1 = "PhysicsAgent" then some "Physics"
    else none)

/-- The fixed decline response of the lowest band. -/
def declineResponse : String :=
  "I'm sorry, but I'm not able to determine which subject your question is about. Currently, I can help with Mathematics and Physics questions. Could you please rephrase your question to be more specific about the subject?"

/-- The four-band confidence policy of TutorAgent.run: the event emitted once
intent analysis has produced best_agent, confidence and scores. -/
def tutorDecide (best_agent : String) (confidence : ℚ)
    (scores : List (String × ℚ)) (request_id trace_id : String) : Event :=
  if confidence ≥ HIGH_CONFIDENCE_THRESHOLD then
    .delegation best_agent confidence ⟨scores, none⟩ request_id trace_id
  else if confidence ≥ DEFAULT_CONFIDENCE_THRESHOLD then
    .delegation best_agent confidence
      ⟨scores, some ("This query has elements of multiple subjects. Confidence: "
        ++ fmtConf confidence)⟩ request_id trace_id
  else if confidence ≥ LOW_CONFIDENCE_THRESHOLD then
    .clarification clarificationMessage (clarificationOptions scores)
      request_id trace_id
  else
    .generalResponse declineResponse request_id trace_id

/-- An agent run as an interaction tree: done when the generator returns,
or a suspension carrying the yielded value (none models a bare yield, which
yields the Python value None) and the continuation applied to the value sent
into the generator on resumption. -/
inductive AgentGen
  | done
  | step (out : Option Event) (k : Option Event → AgentGen)

/-- An agent is its run method: a context produces an interaction tree. -/
abbrev Agent := InvocationContext → AgentGen

/-- TutorAgent.run (src/agents/tutor_agent.py): validate the query, analyze
intent (stage 1 lexical, stage 2 oracle), then apply the confidence bands.
An oracle failure is caught by the agent's local exception boundary. -/
def tutor_run (oracle : IntentOracle) (ctx : InvocationContext) : AgentGen :=
  let query := ctx.query
  let request_id := ctx.request_id
  let trace_id := ctx.trace_id
  if query.toList = [] ∨ pyStrip query.toList = [] then
    .step (some (.error "EMPTY_QUERY" "Query cannot be empty" request_id trace_id))
      (fun _ => .done)
  else
    match analyze_query_intent oracle query with
    | .ok (best_agent, confidence, scores) =>
        .step (some (tutorDecide best_agent confidence scores request_id trace_id))
          (fun _ => .done)
    | .error e =>
        .step (some (.error "TUTOR_AGENT_ERROR" ("Error in Tutor Agent: " ++ e)
          request_id trace_id)) (fun _ => .done)

/-! ## Lookup tool (src/tools/lookup.py, data from src/config/settings.py) -/

/-- An entry of one of the two static reference tables: a physics constant
(value, unit, description) or a formula (formula, description, variables). -/
inductive EntryVal
  | constE (value : ℚ) (unit : String) (description : String)
  | formulaE (formula : String) (description : String)
      (vars : List (String × String))

/-- Python dict.get of the value key on an entry dict. -/
def EntryVal.getValue : EntryVal → Option ℚ
  | .constE v _ _ => some v
  | .formulaE _ _ _ => none

/-- Python dict.get of the unit key on an entry dict. -/
def EntryVal.getUnit : EntryVal → Option String
  | .constE _ u _ => some u
  | .formulaE _ _ _ => none

/-- Python dict.get of the description key on an entry dict. -/
def EntryVal.getDescription : EntryVal → Option String
  | .constE _ _ d => some d
  | .formulaE _ d _ => some d

/-- Python dict.get of the formula key on an entry dict. -/
def EntryVal.getFormula : EntryVal → Option String
  | .constE _ _ _ => none
  | .formulaE f _ _ => some f

/-- Python dict.get of the variables key on an entry dict. -/
def EntryVal.getVariables : EntryVal → Option (List (String × String))
  | .constE _ _ _ => none
  | .formulaE _ _ vs => some vs

/-- PHYSICS_CONSTANTS (src/config/settings.py), decimal floats as rationals. -/
def PHYSICS_CONSTANTS : List (String × EntryVal) :=
  [("g", .constE (981/100) "m/s²" "Acceleration due to gravity on Earth"),
   ("c", .constE 299792458 "m/s" "Speed of light in vacuum"),
   ("G", .constE (667430/10^16) "m³/(kg·s²)" "Gravitational constant"),
   ("h", .constE (662607015/10^42) "J·s" "Planck constant"),
   ("e", .constE (1602176634/10^28) "C" "Elementary charge"),
   ("me", .constE (91093837015/10^41) "kg" "Electron mass"),
   ("mp", .constE (167262192369/10^38) "kg" "Proton mass"),
   ("k", .constE (1380649/10^29) "J/K" "Boltzmann constant"),
   ("NA", .constE (602214076 * 10^15) "mol⁻¹" "Avogadro constant"),
   ("R", .constE (831446261815324/10^14) "J/(mol·K)" "Gas constant")]

/-- PHYSICS_FORMULAS (src/config/settings.py). -/
def PHYSICS_FORMULAS : List (String × EntryVal) :=
  [("newton_second_law", .formulaE "F = m·a"
      "Newton's Second Law: Force equals mass times acceleration"
      [("F", "Force (N)"), ("m", "Mass (kg)"), ("a", "Acceleration (m/s²)")]),
   ("kinetic_energy", .formulaE "KE = 0.5·m·v²"
      "Kinetic Energy: The energy of motion"
      [("KE", "Kinetic Energy (J)"), ("m", "Mass (kg)"), ("v", "Velocity (m/s)")]),
   ("potential_energy_gravitational", .formulaE "PE = m·g·h"
      "Gravitational Potential Energy: Energy due to position in a gravitational field"
      [("PE", "Potential Energy (J)"), ("m", "Mass (kg)"),
       ("g", "Gravitational acceleration (m/s²)"), ("h", "Height (m)")]),
   ("momentum", .formulaE "p = m·v" "Momentum: Product of mass and velocity"
      [("p", "Momentum (kg·m/s)"), ("m", "Mass (kg)"), ("v", "Velocity (m/s)")]),
   ("uniform_acceleration", .formulaE "v = v₀ + a·t"
      "Velocity with uniform acceleration"
      [("v", "Final velocity (m/s)"), ("v₀", "Initial velocity (m/s)"),
       ("a", "Acceleration (m/s²)"), ("t", "Time (s)")]),
   ("uniform_acceleration_distance", .formulaE "d = v₀·t + 0.5·a·t²"
      "Distance with uniform acceleration"
      [("d", "Distance (m)"), ("v₀", "Initial velocity (m/s)"),
       ("a", "Acceleration (m/s²)"), ("t", "Time (s)")]),
   ("work", .formulaE "W = F·d·cos(θ)" "Work done by a constant force"
      [("W", "Work (J)"), ("F", "Force (N)"), ("d", "Distance (m)"),
       ("θ", "Angle between force and displacement (rad)")]),
   ("power", .formulaE "P = W/t" "Power: Rate of doing work"
      [("P", "Power (W)"), ("W", "Work (J)"), ("t", "Time (s)")]),
   ("ohms_law", .formulaE "V = I·R"
      "Ohm's Law: Relationship between voltage, current, and resistance"
      [("V", "Voltage (V)"), ("I", "Current (A)"), ("R", "Resistance (Ω)")]),
   ("universal_gravitation", .formulaE "F = G·(m₁·m₂)/r²"
      "Newton's Law of Universal Gravitation"
      [("F", "Force (N)"), ("G", "Gravitational constant (m³/(kg·s²))"),
       ("m₁", "Mass 1 (kg)"), ("m₂", "Mass 2 (kg)"),
       ("r", "Distance between centers (m)")])]

/-- Python str.lower on a String. -/
def pyLowerS (s : String) : String := ⟨pyLower s.toList⟩

/-- One step of the partial-match loop of LookupTool._fuzzy_match, for one
key k of the collection, updating the (best_match, best_score) accumulator. -/
def fuzzyStep (key_lower : String) (acc : Option String × ℚ) (k : String) :
    Option String × ℚ :=
  if isSubstrS key_lower (pyLowerS k) then
    let score : ℚ := (key_lower.toList.length : ℚ) / ((pyLowerS k).toList.length : ℚ)
    if score > acc.2 then (some k, score) else acc
  else if isSubstrS (pyLowerS k) key_lower then
    let score : ℚ := (((pyLowerS k).toList.length : ℚ)) / (key_lower.toList.length : ℚ)
    if score > acc.2 then (some k, score) else acc
  else acc

/-- The (best_match, best_score) pair after the whole partial-match loop. -/
def partialBest (key : String) (collection : List (String × EntryVal)) :
    Option String × ℚ :=
  collection.foldl (fun acc p => fuzzyStep (pyLowerS key) acc p.1) (none, 0)

/-- LookupTool._fuzzy_match (src/tools/lookup.py): exact match, then
case-insensitive match, then substring partial match accepted only above 0.5. -/
def fuzzy_match (key : String) (collection : List (String × EntryVal)) :
    Option String × ℚ :=
  if (lookupK collection key).isSome then (some key, 1)
  else
    match collection.find? (fun p => pyLowerS p.1 = pyLowerS key) with
    | some p => (some p.1, 9/10)
    | none =>
        let best := partialBest key collection
        if best.1.isSome ∧ best.2 > 1/2 then best else (none, 0)

/-- Outcome of a tool execute call: a raised ToolError, or a raised
non-ToolError Python exception (carrying str(e)). -/
inductive ExecError
  | toolError (message : String)
  | pyError (message : String)
  deriving DecidableEq

/-- str(e) of either exception kind, as the Runner records it. -/
def ExecError.message : ExecError → String
  | .toolError m => m
  | .pyError m => m

/-- A tool is its execute method on the string-valued inputs dict. -/
abbrev Tool := List (String × String) → Except ExecError ToolDict

/-- inputs.get(k, fallback) on the string-valued inputs dict. -/
def getInput (inputs : List (String × String)) (k fallback : String) : String :=
  (lookupK inputs k).getD fallback

/-- The collection selected by the lookup type, as in LookupTool.execute. -/
def select_collection (lookup_type : String) : List (String × EntryVal) :=
  if lookup_type = "constant" then PHYSICS_CONSTANTS else PHYSICS_FORMULAS

/-- LookupTool.execute (src/tools/lookup.py): validate inputs, fuzzy-match the
key against the selected static table, build the result dict, and annotate it
with match_confidence and original_query when the match was not exact. -/
def lookup_execute (inputs : List (String × String)) : Except ExecError ToolDict :=
  let key := getInput inputs "key" ""
  let lookup_type := getInput inputs "type" "constant"
  if key = "" then
    .error (.toolError "Missing key for lookup")
  else if ¬ (lookup_type = "constant" ∨ lookup_type = "formula") then
    .error (.toolError ("Invalid lookup type: " ++ lookup_type
      ++ ". Must be 'constant' or 'formula'."))
  else
    let collection := select_collection lookup_type
    let m := fuzzy_match key collection
    match m.1 with
    | none =>
        .error (.toolError ("No match found for " ++ lookup_type ++ ": " ++ key))
    | some matched_key =>
        match lookupK collection matched_key with
        | none =>
            -- unreachable: fuzzy_match only returns keys of the collection
            .error (.pyError "KeyError")
        | some entry =>
            let base : LookupResult :=
              if lookup_type = "constant" then
                { key := matched_key, type := "constant",
                  value := entry.getValue, unit := entry.getUnit,
                  description := entry.getDescription,
                  formula := none, vars := none,
                  match_confidence := none, original_query := none }
              else
                { key := matched_key, type := "formula",
                  value := none, unit := none,
                  description := entry.getDescription,
                  formula := entry.getFormula, vars := entry.getVariables,
                  match_confidence := none, original_query := none }
            let tool_result :=
              if m.2 < 1 then
                { base with match_confidence := some m.2, original_query := some key }
              else base
            .ok (.lookupR tool_result)

/-! ## Calculator tool (src/tools/calculator.py) -/

/-- The single-character operator tokens of the tokenizing regex
(the character class of plus, minus, star, slash, caret and parentheses). -/
def opChars : List Char := ['+', '-', '*', '/', '^', '(', ')']

/-- One pass of re.findall with the tokenizing pattern of
CalculatorTool._validate_expression: an operator character, a decimal number,
an integer, or a letter run; unmatched characters are skipped. Fuel-indexed
(the wrapper supplies enough fuel for the whole string). -/
def tokenizeF : Nat → List Char → List (List Char)
  | 0, _ => []
  | _ + 1, [] => []
  | fuel + 1, c :: rest =>
      if opChars.contains c then [c] :: tokenizeF fuel rest
      else if c.isDigit then
        let d1 := (c :: rest).takeWhile Char.isDigit
        let after := (c :: rest).drop d1.length
        match after with
        | '.' :: r2 =>
            let d2 := r2.takeWhile Char.isDigit
            if d2.isEmpty then d1 :: tokenizeF fuel after
            else (d1 ++ '.' :: d2) :: tokenizeF fuel (r2.drop d2.length)
        | _ => d1 :: tokenizeF fuel after
      else if c.isAlpha then
        let w := (c :: rest).takeWhile Char.isAlpha
        w :: tokenizeF fuel ((c :: rest).drop w.length)
      else tokenizeF fuel rest

/-- The token list of an expression. -/
def tokenize (s : List Char) : List (List Char) :=
  tokenizeF s.length s

/-- Does a token match one of the number patterns (anchored digits, or
anchored digits dot digits) that the validation loop accepts outright. -/
def isNumberToken (t : List Char) : Bool :=
  let d1 := t.takeWhile Char.isDigit
  if d1.isEmpty then false
  else
    match t.drop d1.length with
    | [] => true
    | '.' :: r => !r.isEmpty && r.all Char.isDigit
    | _ => false

/-- The division-by-zero scan of _validate_expression: a slash, optional
whitespace, a zero not followed by a dot or a digit. -/
def hasDivZero : List Char → Bool
  | [] => false
  | '/' :: rest =>
      (let sp := rest.takeWhile isPySpace
       match rest.drop sp.length with
       | '0' :: after =>
           (match after with
            | [] => true
            | a :: _ => !(a = '.' || a.isDigit))
       | _ => false)
      || hasDivZero rest
  | _ :: rest => hasDivZero rest

/-- Outcome of CalculatorTool._validate_expression: the is_valid/error pair,
or a raised exception escaping the function. -/
inductive ValidationOutcome
  | raisedRe (message : String)
  | invalid (message : String)
  | valid
  deriving DecidableEq

/-- CalculatorTool._validate_expression (src/tools/calculator.py). For every
token that is not a number, the allow-list loop immediately evaluates
re.match of the anchored pattern built from the dict key plus, whose regex
text (caret plus dollar) is rejected by the regex compiler, so the function
raises re.error instead of returning: any expression containing an operator,
parenthesis or letter token raises. Only then come the balanced-parentheses
and division-by-zero checks. -/
def validate_expression (expression : List Char) : ValidationOutcome :=
  if expression = [] ∨ pyStrip expression = [] then
    .invalid "Expression cannot be empty"
  else if ¬ ((tokenize expression).all isNumberToken) then
    .raisedRe "nothing to repeat at position 1"
  else if expression.count '(' ≠ expression.count ')' then
    .invalid "Unbalanced parentheses"
  else if hasDivZero expression then
    .invalid "Division by zero"
  else .valid

/-- CalculatorTool._preprocess_expression: replace caret by double star,
then strip whitespace. -/
def preprocess_expression (e : List Char) : List Char :=
  pyStrip (e.foldr (fun c acc => if c = '^' then '*' :: '*' :: acc else c :: acc) [])

/-- Numeric value of a digit run. -/
def natOfDigits (ds : List Char) : Nat :=
  ds.foldl (fun a c => 10 * a + (c.toNat - '0'.toNat)) 0

/-- Modelled from the spec: the expression is evaluated by an external
symbolic/numeric evaluator (sympy's sympify and evalf, which the spec treats
as a well-tested external capability). Expressions that reach evaluation have
passed validation and therefore consist of number tokens and skipped
characters only, so the model evaluates a single numeric literal and fails
with a parse error on anything else, as the external evaluator does. -/
def evalNum (s : List Char) : Except String ℚ :=
  let d1 := s.takeWhile Char.isDigit
  if d1.isEmpty then .error "SympifyError"
  else
    match s.drop d1.length with
    | [] => .ok (natOfDigits d1)
    | '.' :: r =>
        let d2 := r.takeWhile Char.isDigit
        if r.drop d2.length = [] then
          .ok ((natOfDigits d1 : ℚ) + (natOfDigits d2 : ℚ) / (10 ^ d2.length : ℚ))
        else .error "SympifyError"
    | _ => .error "SympifyError"

/-- CalculatorTool._generate_steps. For expressions containing an arithmetic
operator the source builds best-effort prose through the external symbolic
parser; an expression that reaches this point has passed validation and so
never contains an operator token, leaving only the two-line summary branch,
which is what is modelled (float rendering abstracted by the rational's). -/
def generate_steps (expression : List Char) (result : ℚ) : List String :=
  ["Calculate: " ++ String.mk expression, "Result: " ++ toString result]

/-- CalculatorTool.execute (src/tools/calculator.py): validate (which may
itself raise, see validate_expression), preprocess, evaluate through the
external evaluator, and package result plus steps; evaluator failures are
re-raised as a ToolError. -/
def calc_execute (inputs : List (String × String)) : Except ExecError ToolDict :=
  let expression := getInput inputs "expression" ""
  match validate_expression expression.toList with
  | .raisedRe m => .error (.pyError m)
  | .invalid m => .error (.toolError ("Invalid expression: " ++ m))
  | .valid =>
      let processed := preprocess_expression expression.toList
      match evalNum processed with
      | .ok r => .ok (.calc r (generate_steps expression.toList r))
      | .error e => .error (.toolError ("Calculation failed: " ++ e))

/-! ## Regex helpers for MathAgent pattern extraction
(src/agents/math_agent.py). Patterns are literal words separated by
whitespace-plus, optionally followed by whitespace-plus and a greedy
dot-plus capture; re.search scans start positions left to right. -/

/-- Length of the leading whitespace run. -/
def countLeadSpaces (s : List Char) : Nat :=
  (s.takeWhile isPySpace).length

/-- Case-insensitive literal prefix match (pattern letters are lower case,
matching the IGNORECASE substitutions). -/
def isPrefixCI : List Char → List Char → Bool
  | [], _ => true
  | _ :: _, [] => false
  | p :: ps, c :: cs => p = c.toLower && isPrefixCI ps cs

/-- Backtracking for a trailing whitespace-plus followed by a greedy
dot-plus capture: the whitespace run first takes all k leading whitespace
characters, then gives characters back one at a time until the capture can
match at least one non-newline character. -/
def captureTryK (s : List Char) : Nat → Option (List Char)
  | 0 => none
  | k + 1 =>
      let cap := (s.drop (k + 1)).takeWhile (fun c => c ≠ '\n')
      if cap.isEmpty then captureTryK s k else some cap

/-- Match whitespace-plus capture-of-dot-plus at the start of s, returning
the captured group. -/
def captureTail (s : List Char) : Option (List Char) :=
  let m := countLeadSpaces s
  if m = 0 then none else captureTryK s m

/-- Match a word sequence separated by whitespace-plus, ending in
whitespace-plus and a dot-plus capture, at the start of s. -/
def matchWordsCap : List (List Char) → List Char → Option (List Char)
  | [], _ => none
  | [w], s => if w.isPrefixOf s then captureTail (s.drop w.length) else none
  | w :: ws, s =>
      if w.isPrefixOf s then
        let rest := s.drop w.length
        let m := countLeadSpaces rest
        if m = 0 then none else matchWordsCap ws (rest.drop m)
      else none

/-- re.search: try the matcher at every start position, left to right. -/
def scanSearch {α : Type} (f : List Char → Option α) : List Char → Option α
  | [] => f []
  | c :: rest =>
      match f (c :: rest) with
      | some r => some r
      | none => scanSearch f rest

/-- Match the basic-arithmetic pattern (digits, optional whitespace, one
operator of the class, optional whitespace, digits) at the start of s,
returning the whole match (group zero). -/
def matchArithAt (s : List Char) : Option (List Char) :=
  let d1 := s.takeWhile Char.isDigit
  if d1.isEmpty then none
  else
    let r1 := s.drop d1.length
    let sp1 := r1.takeWhile isPySpace
    match r1.drop sp1.length with
    | op :: r3 =>
        if ['+', '-', '*', '/', '^'].contains op then
          let sp2 := r3.takeWhile isPySpace
          let d2 := (r3.drop sp2.length).takeWhile Char.isDigit
          if d2.isEmpty then none
          else some (d1 ++ sp1 ++ op :: (sp2 ++ d2))
        else none
    | [] => none

/-- The word patterns of MathAgent.calculation_patterns that follow the
basic-arithmetic pattern, in source order; each is the word sequence of a
pattern of the shape words-whitespace-capture. -/
def math_word_patterns : List (List (List Char)) :=
  [["calculate".toList], ["compute".toList], ["evaluate".toList],
   ["solve".toList], ["simplify".toList],
   ["what".toList, "is".toList],
   ["find".toList, "the".toList, "value".toList, "of".toList],
   ["derivative".toList, "of".toList],
   ["integral".toList, "of".toList]]

/-- First pattern of the list that matches somewhere in the query, returning
its captured group, in source pattern order. -/
def findFirstCapture : List (List (List Char)) → List Char → Option (List Char)
  | [], _ => none
  | p :: rest, q =>
      match scanSearch (matchWordsCap p) q with
      | some c => some c
      | none => findFirstCapture rest q

/-- The character class of the standalone-expression check (digits,
whitespace, operators, parentheses, dot). -/
def standaloneClass (c : Char) : Bool :=
  c.isDigit || isPySpace c || ['+', '-', '*', '/', '^', '(', ')', '.'].contains c

/-- MathAgent._extract_calculation_expression (src/agents/math_agent.py):
search the lower-cased query with the calculation patterns in order (the
basic-arithmetic pattern first, whole match; then the word patterns,
captured group), else accept a standalone expression made only of
expression characters. -/
def extract_calculation_expression (query : String) : Option (List Char) :=
  let ql := pyLower query.toList
  match scanSearch matchArithAt ql with
  | some m => some (pyStrip m)
  | none =>
      match findFirstCapture math_word_patterns ql with
      | some cap => some (pyStrip cap)
      | none =>
          let qs := pyStrip query.toList
          if !qs.isEmpty && qs.all standaloneClass then some qs else none

/-- Match a word sequence separated by whitespace-plus (and, when trailing
is set, followed by a final whitespace-plus) at the start of s,
case-insensitively, returning the matched length. -/
def matchWordsLen (trailing : Bool) : List (List Char) → List Char → Option Nat
  | [], _ => none
  | [w], s =>
      if isPrefixCI w s then
        if trailing then
          let m := countLeadSpaces (s.drop w.length)
          if m = 0 then none else some (w.length + m)
        else some w.length
      else none
  | w :: ws, s =>
      if isPrefixCI w s then
        let rest := s.drop w.length
        let m := countLeadSpaces rest
        if m = 0 then none
        else (matchWordsLen trailing ws (rest.drop m)).map (fun n => w.length + m + n)
      else none

/-- re.sub with such a pattern: scan left to right, replace each
non-overlapping match and continue after it. Fuel-indexed; the wrapper
supplies enough fuel for the whole string. -/
def pySubF (trailing : Bool) (words : List (List Char)) (repl : List Char) :
    Nat → List Char → List Char
  | 0, _ => []
  | _ + 1, [] => []
  | fuel + 1, c :: rest =>
      match matchWordsLen trailing words (c :: rest) with
      | some len => repl ++ pySubF trailing words repl fuel ((c :: rest).drop len)
      | none => c :: pySubF trailing words repl fuel rest

/-- re.sub wrapper with sufficient fuel. -/
def pySub (trailing : Bool) (words : List (List Char)) (repl : List Char)
    (s : List Char) : List Char :=
  pySubF trailing words repl (s.length + 1) s

/-- MathAgent._format_calculation_for_tool (src/agents/math_agent.py):
strip request verbs, replace operator words by symbols, drop every remaining
non-mathematical character, strip. -/
def format_calculation_for_tool (expression : List Char) : List Char :=
  let e1 := pySub true ["calculate".toList] [] expression
  let e2 := pySub true ["compute".toList] [] e1
  let e3 := pySub true ["evaluate".toList] [] e2
  let e4 := pySub true ["what".toList, "is".toList] [] e3
  let e5 := pySub true ["find".toList, "the".toList, "value".toList, "of".toList] [] e4
  let e6 := pySub false ["plus".toList] ['+'] e5
  let e7 := pySub false ["minus".toList] ['-'] e6
  let e8 := pySub false ["times".toList] ['*'] e7
  let e9 := pySub false ["multiplied".toList, "by".toList] ['*'] e8
  let e10 := pySub false ["divided".toList, "by".toList] ['/'] e9
  let e11 := pySub false ["squared".toList] ['^', '2'] e10
  let e12 := pySub false ["cubed".toList] ['^', '3'] e11
  pyStrip (e12.filter standaloneClass)

/-! ## MathAgent (src/agents/math_agent.py) -/

/-- Python truthiness of an optional string (None and the empty string are
falsy), used for the error field test on tool results. -/
def pyTruthyOpt : Option String → Bool
  | none => false
  | some s => s ≠ ""

/-- Modelled from the spec: the external text-generation capability
generate(prompt, system_instruction). MathAgent._generate_response assembles
a prose prompt from the query and the optional calculation result and returns
the oracle's text; prompt text is out of scope per the spec, so the
capability is modelled as a function of those two inputs. -/
abbrev RespOracle := String → Option ToolDict → String

/-- MathAgent.run (src/agents/math_agent.py) as an interaction tree. After
yielding the ToolInvocation, the source executes a bare yield (which yields
the Python value None) whose value on resumption is bound to tool_result;
when that value is None, the attribute access tool_result.event_type raises
and the agent's local exception boundary converts it to an error event. -/
def math_run (gen : RespOracle) (ctx : InvocationContext) : AgentGen :=
  let query := ctx.query
  let request_id := ctx.request_id
  let trace_id := ctx.trace_id
  match extract_calculation_expression query with
  | some expression =>
      let formatted := format_calculation_for_tool expression
      .step (some (.toolInvocation "CalculatorTool"
          [("expression", String.mk formatted)] request_id trace_id))
        (fun _ =>
          .step none (fun tool_result =>
            match tool_result with
            | none =>
                .step (some (.error "MATH_AGENT_ERROR"
                    "Error in Math Agent: 'NoneType' object has no attribute 'event_type'"
                    request_id trace_id))
                  (fun _ => .done)
            | some (.toolResult _ r err _ _) =>
                if pyTruthyOpt err then
                  .step (some (.finalResponse (gen query none) "MathAgent"
                      none none request_id trace_id)) (fun _ => .done)
                else
                  .step (some (.finalResponse (gen query (some r)) "MathAgent"
                      (some "CalculatorTool") (some r) request_id trace_id))
                    (fun _ => .done)
            | some _ =>
                .step (some (.finalResponse (gen query none) "MathAgent"
                    none none request_id trace_id)) (fun _ => .done)))
  | none =>
      .step (some (.finalResponse (gen query none) "MathAgent"
          none none request_id trace_id)) (fun _ => .done)

/-! ## Runner / interpreter (src/utils/adk.py) -/

/-- The Runner's construction-time bindings (src/utils/adk.py,
src/api/main.py): static agent and tool registries and its own request and
trace identifiers. The session service is always supplied at construction in
the source, so the store is threaded explicitly through process_query. -/
structure RunnerModel where
  agents : String → Option Agent
  tools : String → Option Tool
  request_id : String
  trace_id : String

/-- The interpreter loop body of Runner.run_agent consuming one agent's
interaction tree, returning the events the loop yields to its own consumer
and, separately, the values it sends into agent generators on resumption
(async-for resumes every generator with None). A yielded None value crashes
the loop body on the event_type attribute access and the surrounding
exception handler turns that into an AGENT_EXECUTION_ERROR event.
A Delegation event runs the target agent on a context copying this one with
the delegation's context payload injected; a ToolInvocation event executes
the tool, converting a raised exception into a ToolResult carrying the error,
or reports TOOL_NOT_FOUND and continues. Fuel only bounds the recursion (the
source has no bound); every concrete run below terminates well within it. -/
def run_gen (R : RunnerModel) :
    Nat → InvocationContext → AgentGen → List Event × List (Option Event)
  | 0, _, _ => ([], [])
  | _ + 1, _, .done => ([], [])
  | _ + 1, _, .step none _ =>
      ([.error "AGENT_EXECUTION_ERROR"
          "Agent execution failed: 'NoneType' object has no attribute 'event_type'"
          R.request_id R.trace_id], [])
  | n + 1, ctx, .step (some ev) k =>
      match ev with
      | .delegation target _ dctx _ _ =>
          let newCtx : InvocationContext := { ctx with extracted_context := dctx }
          let sub :=
            match R.agents target with
            | none =>
                (([.error "AGENT_NOT_FOUND" ("Agent not found: " ++ target)
                    R.request_id R.trace_id], []) : List Event × List (Option Event))
            | some a => run_gen R n newCtx (a newCtx)
          let rest := run_gen R n ctx (k none)
          (sub.1 ++ rest.1, sub.2 ++ none :: rest.2)
      | .toolInvocation tool_name inputs _ _ =>
          match R.tools tool_name with
          | none =>
              let rest := run_gen R n ctx (k none)
              (.error "TOOL_NOT_FOUND" ("Tool not found: " ++ tool_name)
                 R.request_id R.trace_id :: rest.1,
               none :: rest.2)
          | some tool =>
              match tool inputs with
              | .ok r =>
                  let rest := run_gen R n ctx (k none)
                  (.toolResult tool_name r none R.request_id R.trace_id :: rest.1,
                   none :: rest.2)
              | .error e =>
                  let rest := run_gen R n ctx (k none)
                  (.toolResult tool_name .empty (some e.message)
                     R.request_id R.trace_id :: rest.1,
                   none :: rest.2)
      | e =>
          let rest := run_gen R n ctx (k none)
          (e :: rest.1, none :: rest.2)

/-- Runner.run_agent (src/utils/adk.py): report AGENT_NOT_FOUND as an event
for an unknown agent name, else interpret the agent's run. -/
def run_agent (R : RunnerModel) (fuel : Nat) (agent_name : String)
    (ctx : InvocationContext) : List Event × List (Option Event) :=
  match R.agents agent_name with
  | none =>
      ([.error "AGENT_NOT_FOUND" ("Agent not found: " ++ agent_name)
          R.request_id R.trace_id], [])
  | some a => run_gen R fuel ctx (a ctx)

/-- The data Runner.process_query keeps from the first FinalResponse event. -/
structure FinalData where
  response : String
  agent_used : String
  tool_used : Option String
  tool_results : Option ToolDict

/-- The scan of Runner.process_query over the event stream: act on the first
FinalResponse (break) or Error (raise) event, ignore the rest. -/
def scanEvents : List Event → Option (FinalData ⊕ (String × String))
  | [] => none
  | .finalResponse resp agent tu tr _ _ :: _ => some (.inl ⟨resp, agent, tu, tr⟩)
  | .error code msg _ _ :: _ => some (.inr (code, msg))
  | _ :: rest => scanEvents rest

/-- The invocation context Runner.process_query constructs. -/
def process_ctx (R : RunnerModel) (store : Sessions) (query : String)
    (session_id : Option String) : InvocationContext :=
  { query := query,
    request_id := R.request_id,
    session_id := session_id,
    trace_id := R.trace_id,
    session_state := (match session_id with
      | some sid => get_session_state store sid
      | none => []),
    metadata := [],
    extracted_context := ⟨[], none⟩ }

/-- The session value stored for last_response: the final response string, or
Python None when no FinalResponse was observed. -/
def svalOfFinal : Option String → SVal
  | none => .vnone
  | some s => .vstr s

/-- The structured result of a successful Runner.process_query call. -/
structure ProcessOut where
  answer : String
  agent_used : String
  tool_used : Option String
  tool_results : Option ToolDict

/-- Runner.process_query (src/utils/adk.py): build the context from the
session snapshot, run the TutorAgent, raise on the first Error event (the
store is then left as it was), otherwise update the session state with last
query, response and agent, and finally raise if no truthy final response was
produced (the update has already happened on that path, as in the source).
The returned pair carries the result or raised message, and the store. -/
def process_query (R : RunnerModel) (fuel : Nat) (store : Sessions)
    (query : String) (session_id : Option String) :
    Except String ProcessOut × Sessions :=
  let ctx := process_ctx R store query session_id
  let events := (run_agent R fuel "TutorAgent" ctx).1
  match scanEvents events with
  | some (.inr (code, msg)) => (.error (code ++ ": " ++ msg), store)
  | some (.inl f) =>
      let store' := match session_id with
        | some sid => update_session_state store sid
            [("last_query", .vstr query),
             ("last_response", svalOfFinal (some f.response)),
             ("last_agent_used", .vstr f.agent_used)]
        | none => store
      if f.response = "" then (.error "No final response was generated", store')
      else (.ok ⟨f.response, f.agent_used, f.tool_used, f.tool_results⟩, store')
  | none =>
      let store' := match session_id with
        | some sid => update_session_state store sid
            [("last_query", .vstr query),
             ("last_response", svalOfFinal none),
             ("last_agent_used", .vstr "TutorAgent")]
        | none => store
      (.error "No final response was generated", store')

/-- The agent registry as constructed in src/api/main.py, parameterized by
the two external oracle capabilities; the PhysicsAgent entry is present in
the registry (no claim exercises its run, which is kept abstract here as a
further oracle-style parameter). -/
def sysAgents (oracle : IntentOracle) (gen : RespOracle) (physics : Agent) :
    String → Option Agent :=
  fun name =>
    if name = "TutorAgent" then some (tutor_run oracle)
    else if name = "MathAgent" then some (math_run gen)
    else if name = "PhysicsAgent" then some physics
    else none

/-- The tool registry as constructed in src/api/main.py. -/
def sysTools : String → Option Tool :=
  fun name =>
    if name = "CalculatorTool" then some calc_execute
    else if name = "LookupTool" then some lookup_execute
    else none

/-! ## Classifiers and invariant predicates used by the statements -/

/-- Is the event a Delegation (either band). -/
def Event.isDelegation : Event → Bool
  | .delegation .. => true
  | _ => false

/-- Is the event a Delegation whose context carries no ambiguity note
(the high-confidence band). -/
def Event.isDelegationPlain : Event → Bool
  | .delegation _ _ ⟨_, none⟩ _ _ => true
  | _ => false

/-- Is the event a Delegation whose context carries an ambiguity note
(the medium-confidence band). -/
def Event.isDelegationNoted : Event → Bool
  | .delegation _ _ ⟨_, some _⟩ _ _ => true
  | _ => false

/-- Is the event a Clarification. -/
def Event.isClarification : Event → Bool
  | .clarification .. => true
  | _ => false

/-- Is the event a GeneralResponse. -/
def Event.isGeneralResponse : Event → Bool
  | .generalResponse .. => true
  | _ => false

/-- Every event a generator can yield carries the given request and trace
identifiers, at every reachable suspension point. -/
def GenOk (rid tid : String) : AgentGen → Prop
  | .done => True
  | .step out k =>
      (∀ ev, out = some ev → ev.requestId = rid ∧ ev.traceId = tid) ∧
      ∀ v, GenOk rid tid (k v)

/-- Every agent of the registry stamps its events with the identifiers of
the context it is run with. -/
def AgentsOk (R : RunnerModel) : Prop :=
  ∀ name a, R.agents name = some a →
    ∀ c : InvocationContext, GenOk c.request_id c.trace_id (a c)

/-! ## Concrete instances used by closed statements -/

/-- A stub for the external intent oracle: the lexical paths under study never
consult it. -/
def stubIntentOracle : IntentOracle := fun _ => .error "oracle unavailable"

/-- A stub for the external response oracle. -/
def stubRespOracle : RespOracle := fun _ _ => "response"

/-- A stand-in for the PhysicsAgent registry entry (no claim exercises its
run). -/
def stubPhysics : Agent := fun _ => .done

/-- The runner as constructed per request in src/api/main.py, with concrete
request and trace identifiers. -/
def mainRunner : RunnerModel :=
  { agents := sysAgents stubIntentOracle stubRespOracle stubPhysics,
    tools := sysTools,
    request_id := "req-1",
    trace_id := "trace-1" }

/-- A context for the scenario query of the spec, with the runner's ids. -/
def ctxWhatIs : InvocationContext :=
  { query := "what is 2+2", request_id := "req-1", session_id := none,
    trace_id := "trace-1", session_state := [], metadata := [],
    extracted_context := ⟨[], none⟩ }

/-- The same context with different correlation identifiers. -/
def ctxMismatch : InvocationContext :=
  { ctxWhatIs with request_id := "req-2", trace_id := "trace-2" }

/-- A tutor stand-in that immediately delegates to a name absent from the
registry. -/
def ghostTutor : Agent :=
  fun _ => .step (some (.delegation "GhostAgent" 1 ⟨[], none⟩ "r" "t"))
    (fun _ => .done)

/-- A runner whose registry contains only the ghost-delegating tutor. -/
def ghostRunner : RunnerModel :=
  { agents := fun name => if name = "TutorAgent" then some ghostTutor else none,
    tools := fun _ => none,
    request_id := "r",
    trace_id := "t" }

/-- A nonempty session store used to observe store preservation. -/
def demoStore : Sessions := [("s1", [("k", .vstr "v")])]

/-- A context whose query is whitespace only. -/
def ctxBlank : InvocationContext := { ctxWhatIs with query := "   " }

/-! ## Helper lemmas -/

theorem lookupK_setK {α : Type} (d : List (String × α)) (k k' : String) (v : α) :
    lookupK (setK d k v) k' = if k = k' then some v else lookupK d k' := by
  induction d with
  | nil => simp [setK, lookupK]
  | cons p rest ih =>
      obtain ⟨pk, pv⟩ := p
      by_cases h1 : pk = k
      · subst h1
        by_cases h2 : pk = k' <;> simp [setK, lookupK, h2]
      · by_cases h2 : pk = k'
        · subst h2
          simp [setK, lookupK, h1, Ne.symm h1]
        · simp [setK, lookupK, h1, h2, ih]

theorem setK_setK {α : Type} (d : List (String × α)) (k : String) (v w : α) :
    setK (setK d k v) k w = setK d k w := by
  induction d with
  | nil => simp [setK]
  | cons p rest ih =>
      obtain ⟨pk, pv⟩ := p
      by_cases h1 : pk = k <;> simp [setK, h1, ih]

theorem dictUpdate_nil {α : Type} (d : List (String × α)) : dictUpdate d [] = d := rfl

/-- C9: for every session id, SessionStore.update with an empty updates
mapping leaves the session state observable through get unchanged — for the
updated id and every other id alike. -/
theorem update_empty_preserves_get (sessions : Sessions) (sid sid' : String) :
    get_session_state (update_session_state sessions sid []) sid' =
      get_session_state sessions sid' := by
  unfold update_session_state get_session_state
  cases h : lookupK sessions sid with
  | none =>
      simp [h, dictUpdate_nil, setK_setK, lookupK_setK]
      by_cases h2 : sid = sid'
      · subst h2; simp [h]
      · simp [h2]
  | some m =>
      simp [h, dictUpdate_nil, setK_setK, lookupK_setK]
      by_cases h2 : sid = sid'
      · subst h2; simp [h]
      · simp [h2]

theorem analyze_math_win (oracle : IntentOracle) (q : String)
    (hm : mathCount q > 0) (hd : mathCount q > 2 * physicsCount q) :
    analyze_query_intent oracle q =
      .ok ("MathAgent", lexConf (mathCount q),
        [("MathAgent", lexConf (mathCount q)),
         ("PhysicsAgent", 1 - lexConf (mathCount q))]) := by
  unfold analyze_query_intent
  rw [if_pos ⟨hm, hd⟩]

theorem analyze_physics_win (oracle : IntentOracle) (q : String)
    (hp : physicsCount q > 0) (hd : physicsCount q > 2 * mathCount q) :
    analyze_query_intent oracle q =
      .ok ("PhysicsAgent", lexConf (physicsCount q),
        [("PhysicsAgent", lexConf (physicsCount q)),
         ("MathAgent", 1 - lexConf (physicsCount q))]) := by
  unfold analyze_query_intent
  rw [if_neg, if_pos ⟨hp, hd⟩]
  rintro ⟨h1, h2⟩
  omega

/-- C2: whenever one agent's keyword count is positive and strictly more than
double the other's, stage-1 lexical routing returns that agent with
confidence exactly min(0.7 + 0.1 times count, 0.95) and the loser's
confidence one minus the winner's, for every oracle — the oracle is never
consulted on this path. -/
theorem lexical_routing (q : String) :
    (mathCount q > 0 → mathCount q > 2 * physicsCount q →
      ∀ oracle : IntentOracle,
        analyze_query_intent oracle q =
          .ok ("MathAgent", lexConf (mathCount q),
            [("MathAgent", lexConf (mathCount q)),
             ("PhysicsAgent", 1 - lexConf (mathCount q))]))
    ∧ (physicsCount q > 0 → physicsCount q > 2 * mathCount q →
      ∀ oracle : IntentOracle,
        analyze_query_intent oracle q =
          .ok ("PhysicsAgent", lexConf (physicsCount q),
            [("PhysicsAgent", lexConf (physicsCount q)),
             ("MathAgent", 1 - lexConf (physicsCount q))])) :=
  ⟨fun hm hd oracle => analyze_math_win oracle q hm hd,
   fun hp hd oracle => analyze_physics_win oracle q hp hd⟩

/-- Witness for C2 at the query "math": one math keyword, no physics keyword,
confidence 0.8 and scores 0.8 and 0.2, with the stub oracle untouched. -/
theorem lexical_routing_witness :
    analyze_query_intent stubIntentOracle "math" =
      .ok ("MathAgent", 4/5, [("MathAgent", 4/5), ("PhysicsAgent", 1/5)]) := by
  have h := (lexical_routing "math").1 (by decide) (by decide) stubIntentOracle
  have hc : mathCount "math" = 1 := by decide
  rw [hc] at h
  have hl : lexConf 1 = 4/5 := by norm_num [lexConf]
  rw [hl, show (1 : ℚ) - 4/5 = 1/5 by norm_num] at h
  exact h

theorem lexConf_bounds (n : Nat) (h : 1 ≤ n) :
    4/5 ≤ lexConf n ∧ lexConf n ≤ 19/20 := by
  unfold lexConf
  constructor
  · apply le_min
    · have : (1 : ℚ) ≤ (n : ℚ) := by exact_mod_cast h
      linarith
    · norm_num
  · exact min_le_right _ _

theorem delegates_of_default_le (best : String) (c : ℚ)
    (scores : List (String × ℚ)) (rid tid : String)
    (h : DEFAULT_CONFIDENCE_THRESHOLD ≤ c) :
    (tutorDecide best c scores rid tid).isDelegation = true ∧
    (tutorDecide best c scores rid tid).isClarification = false ∧
    (tutorDecide best c scores rid tid).isGeneralResponse = false := by
  unfold tutorDecide DEFAULT_CONFIDENCE_THRESHOLD at *
  split_ifs with h1 h2 h3 <;>
    simp [Event.isDelegation, Event.isClarification, Event.isGeneralResponse] <;>
    linarith

/-- C10: on the lexical path the winning confidence lies in the interval
from 0.8 to 0.95, hence meets the default threshold 0.7, so the Tutor's
decision is always a Delegation and never a Clarification or the decline
GeneralResponse. -/
theorem lexical_path_always_delegates (q request_id trace_id : String)
    (oracle : IntentOracle)
    (hlex : (mathCount q > 0 ∧ mathCount q > 2 * physicsCount q) ∨
            (physicsCount q > 0 ∧ physicsCount q > 2 * mathCount q)) :
    ∃ best conf scores,
      analyze_query_intent oracle q = .ok (best, conf, scores) ∧
      4/5 ≤ conf ∧ conf ≤ 19/20 ∧ DEFAULT_CONFIDENCE_THRESHOLD ≤ conf ∧
      (tutorDecide best conf scores request_id trace_id).isDelegation = true ∧
      (tutorDecide best conf scores request_id trace_id).isClarification = false ∧
      (tutorDecide best conf scores request_id trace_id).isGeneralResponse = false := by
  have hband : ∀ c : ℚ, 4/5 ≤ c →
      DEFAULT_CONFIDENCE_THRESHOLD ≤ c := by
    intro c hc
    unfold DEFAULT_CONFIDENCE_THRESHOLD
    linarith
  rcases hlex with ⟨hm, hd⟩ | ⟨hp, hd⟩
  · obtain ⟨hb1, hb2⟩ := lexConf_bounds (mathCount q) hm
    refine ⟨"MathAgent", lexConf (mathCount q), _,
      analyze_math_win oracle q hm hd, hb1, hb2, hband _ hb1, ?_⟩
    exact delegates_of_default_le _ _ _ _ _ (hband _ hb1)
  · obtain ⟨hb1, hb2⟩ := lexConf_bounds (physicsCount q) hp
    refine ⟨"PhysicsAgent", lexConf (physicsCount q), _,
      analyze_physics_win oracle q hp hd, hb1, hb2, hband _ hb1, ?_⟩
    exact delegates_of_default_le _ _ _ _ _ (hband _ hb1)

/-- Witness for C10 at the query "math". -/
theorem lexical_path_always_delegates_witness :
    ∃ best conf scores,
      analyze_query_intent stubIntentOracle "math" = .ok (best, conf, scores) ∧
      4/5 ≤ conf ∧ conf ≤ 19/20 ∧ DEFAULT_CONFIDENCE_THRESHOLD ≤ conf ∧
      (tutorDecide best conf scores "r" "t").isDelegation = true ∧
      (tutorDecide best conf scores "r" "t").isClarification = false ∧
      (tutorDecide best conf scores "r" "t").isGeneralResponse = false :=
  lexical_path_always_delegates "math" "r" "t" stubIntentOracle
    (Or.inl ⟨by decide, by decide⟩)

/-- C3: for every confidence in the unit interval, the four decision bands
are exhaustive and mutually exclusive — exactly one of the four actions
fires, and each action characterizes its band. -/
theorem confidence_bands (best : String) (c : ℚ) (scores : List (String × ℚ))
    (rid tid : String) (h0 : 0 ≤ c) (h1 : c ≤ 1) :
    ((tutorDecide best c scores rid tid).isDelegationPlain = true ↔
        HIGH_CONFIDENCE_THRESHOLD ≤ c)
    ∧ ((tutorDecide best c scores rid tid).isDelegationNoted = true ↔
        DEFAULT_CONFIDENCE_THRESHOLD ≤ c ∧ c < HIGH_CONFIDENCE_THRESHOLD)
    ∧ ((tutorDecide best c scores rid tid).isClarification = true ↔
        LOW_CONFIDENCE_THRESHOLD ≤ c ∧ c < DEFAULT_CONFIDENCE_THRESHOLD)
    ∧ ((tutorDecide best c scores rid tid).isGeneralResponse = true ↔
        c < LOW_CONFIDENCE_THRESHOLD)
    ∧ ((tutorDecide best c scores rid tid).isDelegationPlain.toNat
        + (tutorDecide best c scores rid tid).isDelegationNoted.toNat
        + (tutorDecide best c scores rid tid).isClarification.toNat
        + (tutorDecide best c scores rid tid).isGeneralResponse.toNat = 1) := by
  unfold tutorDecide HIGH_CONFIDENCE_THRESHOLD DEFAULT_CONFIDENCE_THRESHOLD
    LOW_CONFIDENCE_THRESHOLD
  split_ifs with hA hB hC <;>
    simp only [Event.isDelegationPlain, Event.isDelegationNoted,
      Event.isClarification, Event.isGeneralResponse, Bool.toNat_true,
      Bool.toNat_false] <;>
    refine ⟨?_, ?_, ?_, ?_, by norm_num⟩ <;>
    simp <;>
    first
      | linarith
      | (constructor <;> linarith)
      | (constructor <;> intro <;> linarith)
      | (intro <;> linarith)
      | (rintro ⟨hx, hy⟩ <;> linarith)

/-- Witness for C3 at confidence 0.8: the medium band fires alone. -/
theorem confidence_bands_witness :
    ((tutorDecide "MathAgent" (4/5) [] "r" "t").isDelegationPlain = true ↔
        HIGH_CONFIDENCE_THRESHOLD ≤ (4/5 : ℚ))
    ∧ ((tutorDecide "MathAgent" (4/5) [] "r" "t").isDelegationNoted = true ↔
        DEFAULT_CONFIDENCE_THRESHOLD ≤ (4/5 : ℚ) ∧ (4/5 : ℚ) < HIGH_CONFIDENCE_THRESHOLD)
    ∧ ((tutorDecide "MathAgent" (4/5) [] "r" "t").isClarification = true ↔
        LOW_CONFIDENCE_THRESHOLD ≤ (4/5 : ℚ) ∧ (4/5 : ℚ) < DEFAULT_CONFIDENCE_THRESHOLD)
    ∧ ((tutorDecide "MathAgent" (4/5) [] "r" "t").isGeneralResponse = true ↔
        (4/5 : ℚ) < LOW_CONFIDENCE_THRESHOLD)
    ∧ ((tutorDecide "MathAgent" (4/5) [] "r" "t").isDelegationPlain.toNat
        + (tutorDecide "MathAgent" (4/5) [] "r" "t").isDelegationNoted.toNat
        + (tutorDecide "MathAgent" (4/5) [] "r" "t").isClarification.toNat
        + (tutorDecide "MathAgent" (4/5) [] "r" "t").isGeneralResponse.toNat = 1) :=
  confidence_bands "MathAgent" (4/5) [] "r" "t" (by norm_num) (by norm_num)

theorem pyStrip_all_space (l : List Char) (h : l.all isPySpace) :
    pyStrip l = [] := by
  unfold pyStrip
  have hd : l.dropWhile isPySpace = [] := by
    rw [List.dropWhile_eq_nil_iff]
    intro x hx
    exact List.all_eq_true.mp h x hx
  rw [hd]
  rfl

/-- C8: an empty or whitespace-only query makes the Tutor agent emit exactly
one Error event with code EMPTY_QUERY and terminate; the produced run does
not depend on the oracle, so no routing (lexical or oracle) occurs. -/
theorem empty_query_short_circuits (oracle : IntentOracle)
    (ctx : InvocationContext) (h : ctx.query.toList.all isPySpace) :
    tutor_run oracle ctx =
      .step (some (.error "EMPTY_QUERY" "Query cannot be empty"
        ctx.request_id ctx.trace_id)) (fun _ => .done) := by
  unfold tutor_run
  rw [if_pos (Or.inr (pyStrip_all_space _ h))]

/-- Witness for C8 at the whitespace query. -/
theorem empty_query_short_circuits_witness :
    tutor_run stubIntentOracle ctxBlank =
      .step (some (.error "EMPTY_QUERY" "Query cannot be empty"
        "req-1" "trace-1")) (fun _ => .done) :=
  empty_query_short_circuits stubIntentOracle ctxBlank (by decide)

/-- C4: the Calculator's validation never gets to report on well-formed or
unbalanced expressions: for the well-formed balanced "2+2" (which the spec
requires to produce a finite numeric result) and for the unbalanced "(("
(which the spec requires to fail with a validation ToolError), execute
instead escapes with the raised regex-compilation error, because the
allow-list loop builds the invalid anchored pattern from the plus key for
every non-number token. -/
theorem calculator_validation_raises :
    calc_execute [("expression", "2+2")] =
      .error (.pyError "nothing to repeat at position 1")
    ∧ calc_execute [("expression", "((")] =
      .error (.pyError "nothing to repeat at position 1")
    ∧ validate_expression "2+2".toList = .raisedRe "nothing to repeat at position 1"
    ∧ validate_expression "((".toList = .raisedRe "nothing to repeat at position 1" :=
  ⟨rfl, rfl, rfl, rfl⟩

theorem fuzzy_match_exact (key : String) (coll : List (String × EntryVal))
    (h : (lookupK coll key).isSome) : fuzzy_match key coll = (some key, 1) := by
  unfold fuzzy_match
  rw [if_pos h]

theorem fuzzy_match_miss (key : String) (coll : List (String × EntryVal))
    (h1 : lookupK coll key = none)
    (h2 : coll.find? (fun p => pyLowerS p.1 = pyLowerS key) = none)
    (h3 : (partialBest key coll).2 ≤ 1/2) :
    fuzzy_match key coll = (none, 0) := by
  unfold fuzzy_match
  rw [if_neg (by simp [h1]), h2]
  rw [if_neg]
  rintro ⟨_, hgt⟩
  linarith

theorem collection_key_ne_empty (lookup_type key : String)
    (hlt : lookup_type = "constant" ∨ lookup_type = "formula")
    (h : (lookupK (select_collection lookup_type) key).isSome) : key ≠ "" := by
  intro hk
  subst hk
  rcases hlt with h1 | h1 <;> subst h1 <;>
    exact absurd h (by decide)

/-- C5: an exact key match in the selected reference table returns a result
with no fuzzy annotation (no match_confidence or original_query field), and
a key whose exact and case-insensitive matches fail and whose best partial
similarity does not exceed 0.5 always fails with the not-found ToolError. -/
theorem lookup_exact_and_threshold (key lookup_type : String)
    (hlt : lookup_type = "constant" ∨ lookup_type = "formula") :
    ((lookupK (select_collection lookup_type) key).isSome →
      ∃ r, lookup_execute [("key", key), ("type", lookup_type)] = .ok (.lookupR r) ∧
        r.match_confidence = none ∧ r.original_query = none ∧ r.key = key)
    ∧ (key ≠ "" →
      lookupK (select_collection lookup_type) key = none →
      (select_collection lookup_type).find?
        (fun p => pyLowerS p.1 = pyLowerS key) = none →
      (partialBest key (select_collection lookup_type)).2 ≤ 1/2 →
      lookup_execute [("key", key), ("type", lookup_type)] =
        .error (.toolError ("No match found for " ++ lookup_type ++ ": " ++ key))) := by
  have hget1 : getInput [("key", key), ("type", lookup_type)] "key" "" = key := rfl
  have hget2 : getInput [("key", key), ("type", lookup_type)] "type" "constant" =
      lookup_type := rfl
  constructor
  · intro hsome
    have hne := collection_key_ne_empty lookup_type key hlt hsome
    obtain ⟨entry, hentry⟩ := Option.isSome_iff_exists.mp hsome
    unfold lookup_execute
    rw [hget1, hget2, if_neg hne, if_neg (not_not_intro hlt)]
    simp only [fuzzy_match_exact key _ hsome, hentry, lt_self_iff_false, if_false]
    refine ⟨_, rfl, ?_, ?_, ?_⟩ <;> split_ifs <;> rfl
  · intro hne h1 h2 h3
    unfold lookup_execute
    rw [hget1, hget2, if_neg hne, if_neg (not_not_intro hlt)]
    simp only [fuzzy_match_miss key _ h1 h2 h3]

/-- Witness for C5: the exact key g in the constants table carries no fuzzy
annotation, and the key xyz (best partial score 0) fails with not-found. -/
theorem lookup_exact_and_threshold_witness :
    (∃ r, lookup_execute [("key", "g"), ("type", "constant")] = .ok (.lookupR r) ∧
      r.match_confidence = none ∧ r.original_query = none ∧ r.key = "g")
    ∧ lookup_execute [("key", "xyz"), ("type", "constant")] =
        .error (.toolError ("No match found for " ++ "constant" ++ ": " ++ "xyz")) :=
  ⟨(lookup_exact_and_threshold "g" "constant" (Or.inl rfl)).1 (by decide),
   (lookup_exact_and_threshold "xyz" "constant" (Or.inl rfl)).2
     (by decide) rfl rfl
     (by rw [show partialBest "xyz" (select_collection "constant") = (none, 0) from rfl]
         norm_num)⟩

theorem run_gen_sends_only_none (R : RunnerModel) :
    ∀ fuel ctx gen v, v ∈ (run_gen R fuel ctx gen).2 → v = none := by
  intro fuel
  induction fuel with
  | zero =>
      intro ctx gen v hv
      simp [run_gen] at hv
  | succ n ih =>
      intro ctx gen v hv
      cases gen with
      | done => simp [run_gen] at hv
      | step out k =>
          cases out with
          | none => simp [run_gen] at hv
          | some ev =>
              cases ev with
              | delegation tgt conf dctx rid tid =>
                  simp only [run_gen] at hv
                  rw [List.mem_append] at hv
                  rcases hv with hv | hv
                  · cases hAg : R.agents tgt with
                    | none => rw [hAg] at hv; simp at hv
                    | some a =>
                        rw [hAg] at hv
                        exact ih _ _ v hv
                  · simp only [List.mem_cons] at hv
                    rcases hv with hv | hv
                    · exact hv
                    · exact ih _ _ v hv
              | toolInvocation tool_name inputs rid tid =>
                  simp only [run_gen] at hv
                  cases hT : R.tools tool_name with
                  | none =>
                      rw [hT] at hv
                      simp only [List.mem_cons] at hv
                      rcases hv with hv | hv
                      · exact hv
                      · exact ih _ _ v hv
                  | some tool =>
                      rw [hT] at hv
                      dsimp only at hv
                      cases hX : tool inputs with
                      | ok r =>
                          rw [hX] at hv
                          simp only [List.mem_cons] at hv
                          rcases hv with hv | hv
                          · exact hv
                          · exact ih _ _ v hv
                      | error err =>
                          rw [hX] at hv
                          simp only [List.mem_cons] at hv
                          rcases hv with hv | hv
                          · exact hv
                          · exact ih _ _ v hv
              | clarification m o rid tid =>
                  simp only [run_gen, List.mem_cons] at hv
                  rcases hv with hv | hv
                  · exact hv
                  · exact ih _ _ v hv
              | generalResponse r rid tid =>
                  simp only [run_gen, List.mem_cons] at hv
                  rcases hv with hv | hv
                  · exact hv
                  · exact ih _ _ v hv
              | toolResult tn r er rid tid =>
                  simp only [run_gen, List.mem_cons] at hv
                  rcases hv with hv | hv
                  · exact hv
                  · exact ih _ _ v hv
              | finalResponse r a tu tr rid tid =>
                  simp only [run_gen, List.mem_cons] at hv
                  rcases hv with hv | hv
                  · exact hv
                  · exact ih _ _ v hv
              | error c m rid tid =>
                  simp only [run_gen, List.mem_cons] at hv
                  rcases hv with hv | hv
                  · exact hv
                  · exact ih _ _ v hv

/-- C1 (code bug): the interpreter never supplies a ToolResult to a suspended
agent — every resumption value it ever sends into an agent generator is None
(second conjunct, reflecting that async-for resumes generators with None) —
and on the spec's own scenario query the consequences are visible: the
MathAgent yields a ToolInvocation and suspends, the ToolResult is yielded
outward to the Runner's consumer instead of into the agent, the agent's next
suspension yields None, and the Runner loop crashes on it and emits
AGENT_EXECUTION_ERROR in place of the agent's FinalResponse; the values sent
into the agent over the whole run are exactly [none]. -/
theorem tool_result_never_delivered :
    run_agent mainRunner 6 "MathAgent" ctxWhatIs =
      ([.toolResult "CalculatorTool" .empty (some "nothing to repeat at position 1")
          "req-1" "trace-1",
        .error "AGENT_EXECUTION_ERROR"
          "Agent execution failed: 'NoneType' object has no attribute 'event_type'"
          "req-1" "trace-1"],
       [none])
    ∧ (∀ (R : RunnerModel) (fuel : Nat) (ctx : InvocationContext) (gen : AgentGen)
        (v : Option Event), v ∈ (run_gen R fuel ctx gen).2 → v = none) :=
  ⟨rfl, run_gen_sends_only_none⟩

/-- Witness for C1: the single resumption value of the scenario run is
confirmed to be none by the general conjunct. -/
theorem tool_result_never_delivered_witness :
    (none : Option Event) = none :=
  tool_result_never_delivered.2 mainRunner 6 ctxWhatIs
    (math_run stubRespOracle ctxWhatIs) none
    (by rw [show (run_gen mainRunner 6 ctxWhatIs
          (math_run stubRespOracle ctxWhatIs)).2 = [none] from rfl]
        exact List.mem_singleton.mpr rfl)

/-- C6: when the Tutor's first event delegates to a name absent from the
registry, the Orchestrator yields an AGENT_NOT_FOUND Error event (it does not
raise), process_query then fails with the wrapped code and message, and the
session store is returned exactly as it was. -/
theorem unknown_delegation_target (R : RunnerModel) (fuel : Nat)
    (store : Sessions) (query : String) (sid : Option String) (tA : Agent)
    (target : String) (conf : ℚ) (dctx : DelegCtx) (rid tid : String)
    (k : Option Event → AgentGen)
    (hT : R.agents "TutorAgent" = some tA)
    (hgen : tA (process_ctx R store query sid) =
      .step (some (.delegation target conf dctx rid tid)) k)
    (htarget : R.agents target = none) :
    (run_agent R (fuel + 1) "TutorAgent" (process_ctx R store query sid)).1.head? =
      some (.error "AGENT_NOT_FOUND" ("Agent not found: " ++ target)
        R.request_id R.trace_id)
    ∧ process_query R (fuel + 1) store query sid =
        (.error ("AGENT_NOT_FOUND" ++ ": " ++ ("Agent not found: " ++ target)),
         store) := by
  have hevents : (run_agent R (fuel + 1) "TutorAgent"
      (process_ctx R store query sid)).1 =
      .error "AGENT_NOT_FOUND" ("Agent not found: " ++ target)
          R.request_id R.trace_id ::
        (run_gen R fuel (process_ctx R store query sid) (k none)).1 := by
    unfold run_agent
    rw [hT]
    dsimp only
    rw [hgen]
    simp only [run_gen, htarget]
    rfl
  constructor
  · rw [hevents]
    rfl
  · unfold process_query
    simp only [hevents, scanEvents]

/-- Witness for C6: a registry whose tutor delegates to the absent
GhostAgent, run on a nonempty store. -/
theorem unknown_delegation_target_witness :
    (run_agent ghostRunner 3 "TutorAgent"
      (process_ctx ghostRunner demoStore "hi" (some "s1"))).1.head? =
      some (.error "AGENT_NOT_FOUND" ("Agent not found: " ++ "GhostAgent") "r" "t")
    ∧ process_query ghostRunner 3 demoStore "hi" (some "s1") =
        (.error ("AGENT_NOT_FOUND" ++ ": " ++ ("Agent not found: " ++ "GhostAgent")),
         demoStore) :=
  unknown_delegation_target ghostRunner 2 demoStore "hi" (some "s1") ghostTutor
    "GhostAgent" 1 ⟨[], none⟩ "r" "t" (fun _ => .done) rfl rfl rfl

/-- Counterexample for C7: run with a context whose identifiers differ from
the Runner's, the synthesized Error event carries the Runner's identifiers,
not the context's, so the claim as stated fails. -/
theorem event_ids_counterexample :
    ¬ (∀ e ∈ (run_agent mainRunner 3 "NoSuchAgent" ctxMismatch).1,
        e.requestId = ctxMismatch.request_id ∧ e.traceId = ctxMismatch.trace_id) := by
  intro h
  have hm : (run_agent mainRunner 3 "NoSuchAgent" ctxMismatch).1 =
      [.error "AGENT_NOT_FOUND" "Agent not found: NoSuchAgent" "req-1" "trace-1"] := rfl
  rw [hm] at h
  have := h _ (List.mem_singleton.mpr rfl)
  have h1 := this.1
  simp only [Event.requestId, ctxMismatch, ctxWhatIs] at h1
  exact absurd h1 (by decide)

theorem tutorDecide_ids (b : String) (c : ℚ) (s : List (String × ℚ))
    (rid tid : String) :
    (tutorDecide b c s rid tid).requestId = rid ∧
    (tutorDecide b c s rid tid).traceId = tid := by
  unfold tutorDecide
  split_ifs <;> simp [Event.requestId, Event.traceId]

theorem tutor_genok (oracle : IntentOracle) (ctx : InvocationContext) :
    GenOk ctx.request_id ctx.trace_id (tutor_run oracle ctx) := by
  unfold tutor_run
  dsimp only
  split_ifs with h
  · simp [GenOk, Event.requestId, Event.traceId]
  · cases hA : analyze_query_intent oracle ctx.query with
    | ok triple =>
        obtain ⟨b, c, s⟩ := triple
        simp only [GenOk]
        refine ⟨?_, fun _ => trivial⟩
        intro ev hev
        cases hev
        exact tutorDecide_ids b c s ctx.request_id ctx.trace_id
    | error e => simp [GenOk, Event.requestId, Event.traceId]

theorem math_genok (gen : RespOracle) (ctx : InvocationContext) :
    GenOk ctx.request_id ctx.trace_id (math_run gen ctx) := by
  unfold math_run
  dsimp only
  cases hE : extract_calculation_expression ctx.query with
  | none => simp [hE, GenOk, Event.requestId, Event.traceId]
  | some expr =>
      dsimp only
      simp only [GenOk]
      refine ⟨?_, fun _ => ⟨by simp, fun v2 => ?_⟩⟩
      · intro ev hev
        cases hev
        simp [Event.requestId, Event.traceId]
      · cases v2 with
        | none => simp [GenOk, Event.requestId, Event.traceId]
        | some ev2 =>
            cases ev2 <;>
              simp [GenOk, Event.requestId, Event.traceId] <;>
              split_ifs <;>
              simp [GenOk, Event.requestId, Event.traceId]

theorem genok_run_gen (R : RunnerModel) (hA : AgentsOk R) :
    ∀ fuel ctx gen, ctx.request_id = R.request_id → ctx.trace_id = R.trace_id →
      GenOk ctx.request_id ctx.trace_id gen →
      ∀ e ∈ (run_gen R fuel ctx gen).1,
        e.requestId = ctx.request_id ∧ e.traceId = ctx.trace_id := by
  intro fuel
  induction fuel with
  | zero =>
      intro ctx gen _ _ _ e he
      simp [run_gen] at he
  | succ n ih =>
      intro ctx gen hr ht hg e he
      cases gen with
      | done => simp [run_gen] at he
      | step out k =>
          cases out with
          | none =>
              simp only [run_gen, List.mem_singleton] at he
              subst he
              simp [Event.requestId, Event.traceId, hr, ht]
          | some ev =>
              simp only [GenOk] at hg
              obtain ⟨hout, hk⟩ := hg
              cases ev with
              | delegation tgt conf dctx rid tid =>
                  simp only [run_gen] at he
                  rw [List.mem_append] at he
                  rcases he with he | he
                  · cases hAg : R.agents tgt with
                    | none =>
                        rw [hAg] at he
                        simp only [List.mem_singleton] at he
                        subst he
                        simp [Event.requestId, Event.traceId, hr, ht]
                    | some a =>
                        rw [hAg] at he
                        have hnew := ih { ctx with extracted_context := dctx }
                          (a { ctx with extracted_context := dctx }) hr ht
                          (hA tgt a hAg { ctx with extracted_context := dctx }) e he
                        exact hnew
                  · exact ih ctx (k none) hr ht (hk none) e he
              | toolInvocation tool_name inputs rid tid =>
                  simp only [run_gen] at he
                  cases hT : R.tools tool_name with
                  | none =>
                      rw [hT] at he
                      simp only [List.mem_cons] at he
                      rcases he with he | he
                      · subst he
                        simp [Event.requestId, Event.traceId, hr, ht]
                      · exact ih ctx (k none) hr ht (hk none) e he
                  | some tool =>
                      rw [hT] at he
                      dsimp only at he
                      cases hX : tool inputs with
                      | ok r =>
                          rw [hX] at he
                          simp only [List.mem_cons] at he
                          rcases he with he | he
                          · subst he
                            simp [Event.requestId, Event.traceId, hr, ht]
                          · exact ih ctx (k none) hr ht (hk none) e he
                      | error err =>
                          rw [hX] at he
                          simp only [List.mem_cons] at he
                          rcases he with he | he
                          · subst he
                            simp [Event.requestId, Event.traceId, hr, ht]
                          · exact ih ctx (k none) hr ht (hk none) e he
              | clarification m o rid tid =>
                  simp only [run_gen, List.mem_cons] at he
                  rcases he with he | he
                  · subst he; exact hout _ rfl
                  · exact ih ctx (k none) hr ht (hk none) e he
              | generalResponse r rid tid =>
                  simp only [run_gen, List.mem_cons] at he
                  rcases he with he | he
                  · subst he; exact hout _ rfl
                  · exact ih ctx (k none) hr ht (hk none) e he
              | toolResult tn r er rid tid =>
                  simp only [run_gen, List.mem_cons] at he
                  rcases he with he | he
                  · subst he; exact hout _ rfl
                  · exact ih ctx (k none) hr ht (hk none) e he
              | finalResponse r a tu tr rid tid =>
                  simp only [run_gen, List.mem_cons] at he
                  rcases he with he | he
                  · subst he; exact hout _ rfl
                  · exact ih ctx (k none) hr ht (hk none) e he
              | error c m rid tid =>
                  simp only [run_gen, List.mem_cons] at he
                  rcases he with he | he
                  · subst he; exact hout _ rfl
                  · exact ih ctx (k none) hr ht (hk none) e he

/-- C7 amended: events synthesized by the Orchestrator carry the Runner's own
identifiers, so the claimed invariant holds exactly when the context's
identifiers equal the Runner's — which is the case for every context
process_query constructs and every delegation hop derived from it — and
provided every registered agent stamps its events with its context's
identifiers (true of the registered agents). -/
theorem event_ids_amended (R : RunnerModel) (hA : AgentsOk R) (fuel : Nat)
    (name : String) (ctx : InvocationContext)
    (hr : ctx.request_id = R.request_id) (ht : ctx.trace_id = R.trace_id) :
    ∀ e ∈ (run_agent R fuel name ctx).1,
      e.requestId = ctx.request_id ∧ e.traceId = ctx.trace_id := by
  unfold run_agent
  cases hAg : R.agents name with
  | none =>
      intro e he
      simp only [List.mem_singleton] at he
      subst he
      simp [Event.requestId, Event.traceId, hr, ht]
  | some a => exact genok_run_gen R hA fuel ctx (a ctx) hr ht (hA name a hAg ctx)

theorem mainRunner_agents_ok : AgentsOk mainRunner := by
  intro name a h c
  simp only [mainRunner, sysAgents] at h
  split_ifs at h with h1 h2 h3
  · rw [Option.some.injEq] at h
    subst h
    exact tutor_genok stubIntentOracle c
  · rw [Option.some.injEq] at h
    subst h
    exact math_genok stubRespOracle c
  · rw [Option.some.injEq] at h
    subst h
    exact trivial

/-- Witness for the amended C7: the ToolResult the Runner synthesizes in the
scenario run carries the identifiers of the context that produced it. -/
theorem event_ids_amended_witness :
    (Event.toolResult "CalculatorTool" .empty
        (some "nothing to repeat at position 1") "req-1" "trace-1").requestId =
      ctxWhatIs.request_id ∧
    (Event.toolResult "CalculatorTool" .empty
        (some "nothing to repeat at position 1") "req-1" "trace-1").traceId =
      ctxWhatIs.trace_id :=
  event_ids_amended mainRunner mainRunner_agents_ok 6 "MathAgent" ctxWhatIs rfl rfl _
    (by rw [show (run_agent mainRunner 6 "MathAgent" ctxWhatIs).1 =
          [.toolResult "CalculatorTool" .empty
            (some "nothing to repeat at position 1") "req-1" "trace-1",
           .error "AGENT_EXECUTION_ERROR"
            "Agent execution failed: 'NoneType' object has no attribute 'event_type'"
            "req-1" "trace-1"] from rfl]
        exact List.mem_cons_self _ _)

end TutorBot
